import Mathlib

/-!
Verification development for the `macos_trust` scanner.

The definitions below are a shallow embedding, into Lean, of the Python
modules `macos_trust/models.py`, `macos_trust/vendors.py`,
`macos_trust/context.py`, `macos_trust/config.py`, `macos_trust/rules.py`,
`macos_trust/engine.py` and `macos_trust/baseline.py`.

Modelling conventions:
* Python `str` is Lean `String`; character-level operations (`lower()`,
  `startswith`, `in`, slicing, `split`, `replace`) are implemented over
  `String.data` (`List Char`).  All strings appearing in the program are
  ASCII, for which `Char.toLower`/`Char.toUpper` agree with Python.
* Python dict records are structures whose `Option` fields model
  `dict.get` returning `None` for a missing key; `pyGetOr` models
  `dict.get(key, default)` and `pyTruthy` models `if value:` truthiness
  for optional strings.
* A Python function that may receive `None` takes an `Option` argument.
* Filesystem and clock reads performed by `AppContext.__init__`
  (`_MASReceipt` existence check, `os.stat` age) are modelled by an
  explicit environment `ctxEnv : String → AppCtxFacts` mapping a path to
  the facts the constructor derives from the ambient system state.
-/

/-- Python string comparison `a < b` on code points (lexicographic). -/
def charListLt : List Char → List Char → Bool
  | [], [] => false
  | [], _ :: _ => true
  | _ :: _, [] => false
  | a :: as, b :: bs =>
    if a < b then true
    else if b < a then false
    else charListLt as bs

/-- Python `a < b` for strings. -/
def strLt (a b : String) : Bool := charListLt a.data b.data

/-- Python `s.lower()` (ASCII). -/
def pyLower (s : String) : String := ⟨s.data.map Char.toLower⟩

/-- Python `s.capitalize()` (ASCII): first character upper-cased, rest lower-cased. -/
def pyCapitalize (s : String) : String :=
  match s.data with
  | [] => ⟨[]⟩
  | c :: rest => ⟨Char.toUpper c :: rest.map Char.toLower⟩

/-- Python slicing `s[:n]` for strings. -/
def strTake (s : String) (n : Nat) : String := ⟨s.data.take n⟩

/-- Python `s.startswith(pre)`. -/
def pyStartsWith (s pre : String) : Bool := pre.data.isPrefixOf s.data

/-- Substring test on character lists. -/
def listContainsSub (pat : List Char) : List Char → Bool
  | [] => pat.isPrefixOf []
  | c :: rest => pat.isPrefixOf (c :: rest) || listContainsSub pat rest

/-- Python substring membership `sub in s`. -/
def strContainsSub (s sub : String) : Bool := listContainsSub sub.data s.data

/-- Python `s.split(";")` on character lists (`"".split(";") == [""]`). -/
def splitOnSemi : List Char → List (List Char)
  | [] => [[]]
  | c :: rest =>
    let r := splitOnSemi rest
    if c = ';' then [] :: r
    else
      match r with
      | [] => [[c]]
      | h :: t => (c :: h) :: t

/-- Python `s.replace("\\x20", " ")`: replace each occurrence of the
four-character sequence backslash, `x`, `2`, `0` by a space, scanning left
to right. -/
def replaceEscapedSpace : List Char → List Char
  | '\\' :: 'x' :: '2' :: '0' :: rest => ' ' :: replaceEscapedSpace rest
  | c :: rest => c :: replaceEscapedSpace rest
  | [] => []

/-- Python `", ".join(parts)`. -/
def joinCommaSpace (parts : List String) : String := String.intercalate ", " parts

/-- Truthiness of `dict.get(key)` for a string value: `None` and `""` are falsy. -/
def pyTruthy : Option String → Bool
  | none => false
  | some s => s ≠ ""

/-- Python `dict.get(key, default)` for string values. -/
def pyGetOr (a : Option String) (d : String) : String := a.getD d

/-- Python `a or b` where `a` is an optional string (`None`/`""` fall through). -/
def pyOrStr (a : Option String) (b : String) : String :=
  if pyTruthy a then a.getD "" else b

/-! ## models.py -/

/-- Risk level enumeration (`models.Risk`). -/
inductive Risk where
  | HIGH
  | MED
  | LOW
  | INFO
deriving DecidableEq, Repr, BEq

/-- The rank table used by `Risk.__lt__` (`order` in `models.py`), which is
also the severity ranking of the specification: HIGH=0, MED=1, LOW=2, INFO=3. -/
def riskOrder : Risk → Nat
  | .HIGH => 0
  | .MED => 1
  | .LOW => 2
  | .INFO => 3

/-- Python `Risk.__lt__`: `order[self] > order[other]` (the comparison the
source comments call "Reversed for HIGH > MED ordering"). -/
def riskPyLt (a b : Risk) : Bool := riskOrder b < riskOrder a

/-- Python `Risk.value` (the enum's string value). -/
def riskValue : Risk → String
  | .HIGH => "HIGH"
  | .MED => "MED"
  | .LOW => "LOW"
  | .INFO => "INFO"

/-- Individual security finding (`models.Finding`); `evidence` keeps dict
insertion order. -/
structure Finding where
  id : String
  category : String
  risk : Risk
  title : String
  details : String
  path : Option String
  evidence : List (String × String)
  recommendation : String
deriving DecidableEq, Repr

/-- Host system information (`models.HostInfo`). -/
structure HostInfo where
  os_version : String
  build : String
  arch : String
  hostname : String
deriving DecidableEq, Repr

/-- Comparison of the sort keys `(f.risk, f.title)` used by
`ScanReport.sorted_findings` and `engine.run_scan` (Python tuple `<`). -/
def findingKeyLt (f g : Finding) : Bool :=
  if f.risk = g.risk then strLt f.title g.title else riskPyLt f.risk g.risk

/-- Stable insertion of one element into an already sorted list (a later
element is placed after all elements it is not strictly below). -/
def pyOrderedInsert (x : Finding) : List Finding → List Finding
  | [] => [x]
  | y :: ys => if findingKeyLt x y then x :: y :: ys else y :: pyOrderedInsert x ys

/-- Python `sorted(findings, key=lambda f: (f.risk, f.title))`: a stable
ascending sort with respect to `findingKeyLt`. -/
def pySortedFindings (findings : List Finding) : List Finding :=
  findings.foldl (fun acc f => pyOrderedInsert f acc) []

/-- Complete scan report (`models.ScanReport`). -/
structure ScanReport where
  schema_version : String
  host : HostInfo
  timestamp : String
  findings : List Finding
deriving DecidableEq, Repr

/-- Report method `ScanReport.sorted_findings`. -/
def ScanReport.sorted_findings (r : ScanReport) : List Finding :=
  pySortedFindings r.findings

/-! ## vendors.py -/

/-- The `KNOWN_VENDORS` table (Team ID → vendor name). -/
def KNOWN_VENDORS : List (String × String) :=
  [("9BNSXJN65R", "Docker Inc"),
   ("UBF8T346G9", "Microsoft Corporation"),
   ("BJ4HAAB9B3", "Zoom Video Communications"),
   ("MXGJJ98X76", "Valve Corporation"),
   ("EQHXZ8M8AV", "Google LLC"),
   ("6N38VWS5BX", "Mozilla Corporation"),
   ("43AQ936H96", "JetBrains s.r.o."),
   ("4XRHD3P41Q", "Slack Technologies"),
   ("2E337YPCZY", "Dropbox Inc"),
   ("5E9KR5BC68", "Discord Inc"),
   ("MXCNVGBRW2", "Homebrew"),
   ("Apple", "Apple Inc"),
   ("0000000000", "Apple Inc"),
   ("PKV8ZPD836", "GPGTools GmbH"),
   ("PXPBC95EF8", "Oracle America Inc")]

/-- `SYSTEM_HELPER_PATTERNS`. -/
def SYSTEM_HELPER_PATTERNS : List String :=
  ["PrivilegedHelperTools", "XPCServices", "Frameworks/", ".framework/",
   "/Contents/Library/"]

/-- `USER_WRITABLE_PATHS`. -/
def USER_WRITABLE_PATHS : List String :=
  ["/Users/", "/tmp/", "/var/tmp/", "/private/tmp/", "~/"]

/-- `vendors.is_known_vendor`: membership of a Team ID in `KNOWN_VENDORS`. -/
def is_known_vendor (team_id : String) : Bool :=
  (KNOWN_VENDORS.lookup team_id).isSome

/-- `vendors.get_vendor_name`. -/
def get_vendor_name (team_id : String) : String :=
  (KNOWN_VENDORS.lookup team_id).getD team_id

/-- `vendors.is_system_helper_path`: any helper pattern is a substring. -/
def is_system_helper_path (path : String) : Bool :=
  if path = "" then false
  else SYSTEM_HELPER_PATTERNS.any (fun pattern => strContainsSub path pattern)

/-- `vendors.is_user_writable_path`: the path is lower-cased and then
compared with `startswith` against each entry of `USER_WRITABLE_PATHS`. -/
def is_user_writable_path (path : String) : Bool :=
  if path = "" then false
  else USER_WRITABLE_PATHS.any (fun prefixEntry => pyStartsWith (pyLower path) prefixEntry)

/-! ## context.py -/

/-- `context.parse_quarantine_source`: third `;`-separated field with
`\x20` unescaped, when the value has at least three fields. -/
def parse_quarantine_source (quarantine_value : String) : Option String :=
  if quarantine_value = "" then none
  else
    let parts := splitOnSemi quarantine_value.data
    if 3 ≤ parts.length then some ⟨replaceEscapedSpace (parts.getD 2 [])⟩
    else none

/-- `context.is_homebrew_quarantine`: the parsed source exists and contains
`"homebrew"` case-insensitively. -/
def is_homebrew_quarantine (quarantine_value : String) : Bool :=
  match parse_quarantine_source quarantine_value with
  | none => false
  | some source => strContainsSub (pyLower source) "homebrew"

/-- Facts `AppContext.__init__` derives from the filesystem and clock for a
path: the `_MASReceipt` existence check and the `os.stat` based age in days.
(`is_homebrew` and `quarantine_source` are not read by the rule engine.) -/
structure AppCtxFacts where
  is_app_store : Bool
  age_days : Int
deriving DecidableEq, Repr

/-- Ambient system state read by `AppContext.__init__`, as a map from the
artifact path to the derived facts. -/
def CtxEnv : Type := String → AppCtxFacts

/-! ## config.py -/

/-- Configuration (`config.Config` dataclass) with its defaulted fields. -/
structure Config where
  min_risk : String := "MED"
  exclude_vendors : List String := []
  trusted_vendors : List String := []
  ignore_findings : List String := []
  ignore_patterns : List String := []
  baseline_file : String := "~/.macos-trust/baseline.json"
  trust_homebrew_cask : Bool := false
  trust_app_store : Bool := true
  trust_old_apps : Bool := false
  old_app_days : Int := 30
deriving DecidableEq, Repr

/-! ## Collector result records (fixed-shape dicts, §6 of the spec) -/

/-- Result of `collectors.codesign.codesign_verify` with the defaults the
rules apply via `.get`. -/
structure CodesignResult where
  status : String
  team_id : String := ""
  raw : String := ""
deriving DecidableEq, Repr

/-- Result of `collectors.spctl.spctl_assess`. -/
structure SpctlResult where
  status : String
  source : String := ""
  raw : String := ""
deriving DecidableEq, Repr

/-- Result of `collectors.quarantine.get_quarantine` (`is_quarantined` is
the string `"true"`/`"false"`/`"unknown"`). -/
structure QuarantineResult where
  is_quarantined : String
  value : String := ""
deriving DecidableEq, Repr

/-- Result of `collectors.entitlements.get_entitlements`. -/
structure EntitlementsResult where
  status : String
  high_risk : List String := []
  sensitive : List String := []
  count : Nat := 0
deriving DecidableEq, Repr

/-- Artifact dict for applications and launchd items: each `Option` field
models `dict.get` of the corresponding key. -/
structure ItemRecord where
  bundle_id : Option String := none
  name : Option String := none
  label : Option String := none
  exec_path : Option String := none
  app_path : Option String := none
  plist_path : Option String := none
  scope : Option String := none
  program : Option String := none
  run_at_load : Option Bool := none
deriving DecidableEq, Repr

/-- Browser-extension record from `scanners.browser.scan_browser_extensions`. -/
structure ExtensionRecord where
  browser : Option String := none
  id : Option String := none
  name : Option String := none
  manifest_path : Option String := none
  version : Option String := none
  permissions : List String := []
  host_permissions : List String := []
deriving DecidableEq, Repr

/-! ## rules.py -/

/-- Python `str(b).lower()` for a boolean. -/
def pyBoolStr (b : Bool) : String := if b then "true" else "false"

/-- The repeated guard `config and config.trust_homebrew_cask and
is_homebrew_quarantine(quarantine_value)` that suppresses quarantine
findings (rule 3 of `analyze_app`, rule 4 of `analyze_launchd`). -/
def trustHomebrewSkip (config : Option Config) (quarantine_value : String) : Bool :=
  match config with
  | some c => c.trust_homebrew_cask && is_homebrew_quarantine quarantine_value
  | none => false

/-- Helper `_create_codesign_fail_finding`. -/
def create_codesign_fail_finding (app : ItemRecord) (codesign_result : CodesignResult)
    (finding_id : String) (category : String) (risk : Risk) (team_id : String) : Finding :=
  let path := pyOrStr app.exec_path (pyOrStr app.app_path (pyGetOr app.plist_path ""))
  let name := pyOrStr app.name (pyGetOr app.label "Unknown")
  let recommendation :=
    if pyTruthy (some team_id) && is_known_vendor team_id then
      let vendor_name := get_vendor_name team_id
      "This item is signed by " ++ vendor_name ++ " (Team ID: " ++ team_id ++
        "), but the signature is invalid. This could indicate corruption or tampering. Reinstall from official " ++
        vendor_name ++ " sources."
    else
      "Verify the source of this item. Remove if untrusted. Re-download from official sources if legitimate."
  { id := finding_id
    category := category
    risk := risk
    title := "Invalid code signature: " ++ name
    details := "Code signature verification failed for " ++ name ++
      ". This could indicate tampering, corruption, or an unsigned binary."
    path := some path
    evidence :=
      [("codesign_status", codesign_result.status),
       ("codesign_team_id", team_id),
       ("codesign_raw", strTake codesign_result.raw 200)]
    recommendation := recommendation }

/-- Helper `_create_spctl_rejected_finding`. -/
def create_spctl_rejected_finding (app : ItemRecord) (spctl_result : SpctlResult)
    (finding_id : String) (category : String) (risk : Risk) (team_id : String) : Finding :=
  let path := pyOrStr app.exec_path (pyOrStr app.app_path (pyGetOr app.plist_path ""))
  let name := pyOrStr app.name (pyGetOr app.label "Unknown")
  let recommendation :=
    if pyTruthy (some team_id) && is_known_vendor team_id then
      let vendor_name := get_vendor_name team_id
      if is_system_helper_path path then
        "This is a " ++ vendor_name ++ " system helper (Team ID: " ++ team_id ++
          "). Helper utilities commonly fail Gatekeeper checks but may be safe if part of a verified " ++
          vendor_name ++ " installation. Verify the main " ++ vendor_name ++
          " application is properly installed and up to date."
      else
        "This item is signed by " ++ vendor_name ++ " (Team ID: " ++ team_id ++
          ") but rejected by Gatekeeper. This may be a helper utility or older version. Verify with official " ++
          vendor_name ++ " documentation."
    else
      "Do not run this item unless you explicitly trust the source. Verify authenticity and consider obtaining from App Store or notarized sources."
  { id := finding_id
    category := category
    risk := risk
    title := "Gatekeeper blocked: " ++ name
    details := "macOS Gatekeeper has rejected " ++ name ++
      ". This item does not meet Apple\x27s security requirements for execution."
    path := some path
    evidence :=
      [("spctl_status", spctl_result.status),
       ("spctl_source", spctl_result.source),
       ("spctl_team_id", team_id),
       ("spctl_raw", strTake spctl_result.raw 200)]
    recommendation := recommendation }

/-- Helper `_create_user_writable_daemon_finding`. -/
def create_user_writable_daemon_finding (launchd_item : ItemRecord)
    (finding_id : String) : Finding :=
  let program := pyGetOr launchd_item.program ""
  let label := pyGetOr launchd_item.label "Unknown"
  let plist_path := pyGetOr launchd_item.plist_path ""
  { id := finding_id
    category := "persistence"
    risk := Risk.HIGH
    title := "System daemon uses user-writable path: " ++ label
    details := "System daemon \x27" ++ label ++
      "\x27 executes a program from a user-writable location (" ++ program ++
      "). This is a privilege escalation risk, as the daemon runs with elevated privileges but its binary could be modified by unprivileged users."
    path := some plist_path
    evidence :=
      [("scope", "daemon"), ("program", program), ("label", label)]
    recommendation :=
      "Move the program to a system-protected location (e.g., /usr/local/bin) with appropriate permissions, or remove this launch daemon if it\x27s not needed." }

/-- Helper `_create_quarantined_persistence_finding`. -/
def create_quarantined_persistence_finding (launchd_item : ItemRecord)
    (quarantine_result : QuarantineResult) (finding_id : String)
    (run_at_load : Bool) : Finding :=
  let label := pyGetOr launchd_item.label "Unknown"
  let program := pyGetOr launchd_item.program ""
  let plist_path := pyGetOr launchd_item.plist_path ""
  let scope := pyGetOr launchd_item.scope "unknown"
  let risk := if run_at_load then Risk.MED else Risk.LOW
  let title :=
    if run_at_load then "Quarantined persistence item (auto-run): " ++ label
    else "Quarantined persistence item: " ++ label
  let details :=
    if run_at_load then
      "Launch " ++ scope ++ " \x27" ++ label ++
        "\x27 has the quarantine attribute set and is configured to run at load. Quarantined items are typically downloads that haven\x27t been explicitly approved by the user."
    else
      "Launch " ++ scope ++ " \x27" ++ label ++
        "\x27 has the quarantine attribute set but is not configured for auto-start. This is typically from a downloaded item that hasn\x27t been user-approved yet."
  let recommendation :=
    if run_at_load then
      "Review this persistence item. If legitimate, remove the quarantine attribute. If untrusted, remove the launch agent/daemon entirely."
    else
      "Review this item. Quarantine attributes on persistence items without RunAtLoad are lower risk since they don\x27t auto-execute. Remove the quarantine if legitimate or delete if unwanted."
  { id := finding_id
    category := "persistence"
    risk := risk
    title := title
    details := details
    path := some plist_path
    evidence :=
      [("scope", scope), ("program", program), ("label", label),
       ("quarantine_value", strTake quarantine_result.value 100),
       ("run_at_load", pyBoolStr run_at_load)]
    recommendation := recommendation }

/-- Helper `_create_quarantined_app_finding`. -/
def create_quarantined_app_finding (app : ItemRecord)
    (quarantine_result : QuarantineResult) (finding_id : String)
    (quarantine_source : Option String) : Finding :=
  let name := pyGetOr app.name "Unknown"
  let path := pyOrStr app.exec_path (pyGetOr app.app_path "")
  let recommendation :=
    if pyTruthy quarantine_source then
      "This app was downloaded via " ++ quarantine_source.getD "" ++
        ". If it\x27s legitimate software you intentionally downloaded, you can remove the quarantine attribute by running it or using: xattr -d com.apple.quarantine"
    else
      "Review this application. If it\x27s legitimate software you downloaded, you can remove the quarantine attribute by running it or using: xattr -d com.apple.quarantine"
  let evidence :=
    [("quarantine_value", strTake quarantine_result.value 100)] ++
      (if pyTruthy quarantine_source then
        [("quarantine_source", quarantine_source.getD "")]
      else [])
  { id := finding_id
    category := "app"
    risk := Risk.LOW
    title := "Quarantined application: " ++ name
    details := "Application \x27" ++ name ++
      "\x27 has the quarantine attribute set. This typically indicates it was downloaded and hasn\x27t been explicitly approved for execution yet."
    path := some path
    evidence := evidence
    recommendation := recommendation }

/-- Helper `_create_verified_app_finding`. -/
def create_verified_app_finding (app : ItemRecord) (codesign_result : CodesignResult)
    (spctl_result : SpctlResult) (finding_id : String) (team_id : String) : Finding :=
  let name := pyGetOr app.name "Unknown"
  let path := pyOrStr app.exec_path (pyGetOr app.app_path "")
  let vendor_name := if pyTruthy (some team_id) then get_vendor_name team_id else "Unknown"
  { id := finding_id
    category := "app"
    risk := Risk.INFO
    title := "Verified application: " ++ name
    details := "Application \x27" ++ name ++ "\x27 is properly signed by " ++ vendor_name ++
      " and passes all macOS security requirements including Gatekeeper."
    path := some path
    evidence :=
      [("codesign_status", "ok"), ("spctl_status", "accepted"),
       ("team_id", team_id), ("vendor", vendor_name)]
    recommendation := "This application is fully verified and trusted. No action needed." }

/-- Helper `_create_high_risk_entitlements_finding`. -/
def create_high_risk_entitlements_finding (app : ItemRecord)
    (entitlements_result : EntitlementsResult) (finding_id : String)
    (risk : Risk) (team_id : String) : Finding :=
  let path := pyOrStr app.exec_path (pyGetOr app.app_path "")
  let name := pyGetOr app.name "Unknown"
  let high_risk_ents := entitlements_result.high_risk
  let sensitive_ents := entitlements_result.sensitive
  let recommendation :=
    if pyTruthy (some team_id) && is_known_vendor team_id then
      let vendor_name := get_vendor_name team_id
      "This application is from " ++ vendor_name ++ " (Team ID: " ++ team_id ++
        ") and has high-risk entitlements. While known vendors may legitimately need these permissions, verify the application is up to date and obtained from official " ++
        vendor_name ++ " sources."
    else
      "Review whether this application needs these high-risk entitlements. These permissions can be exploited for code injection, sandbox escape, or system compromise. Remove if the application is untrusted or no longer needed."
  let high_risk_list := joinCommaSpace high_risk_ents
  { id := finding_id
    category := "app"
    risk := risk
    title := "High-risk entitlements: " ++ name
    details := name ++ " has high-risk code signing entitlements: " ++ high_risk_list ++
      ". These permissions can be exploited to bypass security controls, inject code, or escape sandboxing."
    path := some path
    evidence :=
      [("high_risk_entitlements", high_risk_list),
       ("sensitive_entitlements", joinCommaSpace sensitive_ents),
       ("entitlements_count", toString entitlements_result.count),
       ("codesign_team_id", team_id)]
    recommendation := recommendation }

/-- Helper `_create_sensitive_entitlements_finding`. -/
def create_sensitive_entitlements_finding (app : ItemRecord)
    (entitlements_result : EntitlementsResult) (finding_id : String)
    (team_id : String) : Finding :=
  let path := pyOrStr app.exec_path (pyGetOr app.app_path "")
  let name := pyGetOr app.name "Unknown"
  let sensitive_ents := entitlements_result.sensitive
  let high_risk_ents := entitlements_result.high_risk
  let non_high_risk_sensitive := sensitive_ents.filter (fun e => !high_risk_ents.contains e)
  let sensitive_list := joinCommaSpace non_high_risk_sensitive
  let recommendation :=
    if pyTruthy (some team_id) && is_known_vendor team_id then
      let vendor_name := get_vendor_name team_id
      "This application from " ++ vendor_name ++ " (Team ID: " ++ team_id ++
        ") has sensitive permissions. This is informational - many legitimate applications need camera, microphone, or contact access. Verify you obtained this from official " ++
        vendor_name ++ " sources."
    else
      "Review whether this application needs these sensitive permissions. Ensure the application is from a trusted source and you understand why it needs these capabilities."
  { id := finding_id
    category := "app"
    risk := Risk.INFO
    title := "Sensitive permissions: " ++ name
    details := name ++ " has requested sensitive system permissions: " ++ sensitive_list ++
      ". While many legitimate applications need these permissions, you should verify they\x27re necessary."
    path := some path
    evidence :=
      [("sensitive_entitlements", sensitive_list),
       ("entitlements_count", toString entitlements_result.count),
       ("codesign_team_id", team_id)]
    recommendation := recommendation }

/-- Rule engine `rules.analyze_app`.  The first argument is the ambient
system state read by `AppContext(path)`; the remaining arguments mirror the
Python signature. -/
def analyze_app (env : CtxEnv) (app : ItemRecord)
    (codesign_result : Option CodesignResult) (spctl_result : Option SpctlResult)
    (quarantine_result : Option QuarantineResult)
    (entitlements_result : Option EntitlementsResult)
    (config : Option Config) : List Finding :=
  let app_id_base := pyOrStr app.bundle_id (pyGetOr app.name "unknown")
  let path := pyOrStr app.exec_path (pyGetOr app.app_path "")
  let team_id := match codesign_result with | some c => c.team_id | none => ""
  let is_signed := match codesign_result with | some c => c.status == "ok" | none => false
  let known_vendor₀ := if team_id ≠ "" then is_known_vendor team_id else false
  let known_vendor :=
    match config with
    | some c => if team_id ≠ "" && c.trusted_vendors.contains team_id then true else known_vendor₀
    | none => known_vendor₀
  let app_context : Option AppCtxFacts := if path ≠ "" then some (env path) else none
  -- Rule 1: invalid code signature
  (match codesign_result with
   | some c =>
     if c.status = "fail" then
       let risk₁ := if known_vendor then Risk.MED else Risk.HIGH
       let risk :=
         match app_context with
         | some ctx =>
           if ctx.is_app_store then Risk.MED
           else if (match config with
                    | some cfg => cfg.trust_old_apps && cfg.old_app_days ≤ ctx.age_days
                    | none => false) then Risk.LOW
           else risk₁
         | none => risk₁
       [create_codesign_fail_finding app c ("app:" ++ app_id_base ++ ":codesign_fail")
         "app" risk team_id]
     else []
   | none => []) ++
  -- Rule 2: Gatekeeper rejected
  (match spctl_result with
   | some s =>
     if s.status = "rejected" then
       let risk₁ := if is_signed && known_vendor then Risk.MED else Risk.HIGH
       let risk :=
         match app_context with
         | some ctx => if ctx.is_app_store then Risk.MED else risk₁
         | none => risk₁
       [create_spctl_rejected_finding app s ("app:" ++ app_id_base ++ ":spctl_rejected")
         "app" risk team_id]
     else []
   | none => []) ++
  -- Rule 3: quarantined
  (match quarantine_result with
   | some q =>
     if q.is_quarantined = "true" then
       let quarantine_value := q.value
       if trustHomebrewSkip config quarantine_value then []
       else
         [create_quarantined_app_finding app q ("app:" ++ app_id_base ++ ":quarantined")
           (parse_quarantine_source quarantine_value)]
     else []
   | none => []) ++
  -- Rule 4: fully verified by known vendor
  (match codesign_result, spctl_result with
   | some c, some s =>
     if is_signed && known_vendor && s.status == "accepted" then
       [create_verified_app_finding app c s ("app:" ++ app_id_base ++ ":verified") team_id]
     else []
   | _, _ => []) ++
  -- Rule 5: high-risk entitlements
  (match entitlements_result with
   | some e =>
     if e.status = "ok" && !e.high_risk.isEmpty then
       let risk :=
         if is_signed && known_vendor then Risk.MED
         else if is_signed then Risk.MED
         else Risk.HIGH
       [create_high_risk_entitlements_finding app e
         ("app:" ++ app_id_base ++ ":high_risk_entitlements") risk team_id]
     else []
   | none => []) ++
  -- Rule 6: sensitive entitlements
  (match entitlements_result with
   | some e =>
     if e.status = "ok" then
       let non_high_risk_sensitive := e.sensitive.filter (fun x => !e.high_risk.contains x)
       if !non_high_risk_sensitive.isEmpty && 3 ≤ non_high_risk_sensitive.length then
         [create_sensitive_entitlements_finding app e
           ("app:" ++ app_id_base ++ ":sensitive_entitlements") team_id]
       else []
     else []
   | none => [])

/-- Rule engine `rules.analyze_launchd`. -/
def analyze_launchd (launchd_item : ItemRecord)
    (codesign_result : Option CodesignResult) (spctl_result : Option SpctlResult)
    (quarantine_result : Option QuarantineResult)
    (config : Option Config) : List Finding :=
  let scope := pyGetOr launchd_item.scope "unknown"
  let label := pyGetOr launchd_item.label "unknown"
  let persistence_id_base := "persistence:" ++ scope ++ ":" ++ label
  let program := pyGetOr launchd_item.program ""
  let team_id := match codesign_result with | some c => c.team_id | none => ""
  let is_signed := match codesign_result with | some c => c.status == "ok" | none => false
  let known_vendor₀ := if team_id ≠ "" then is_known_vendor team_id else false
  let known_vendor :=
    match config with
    | some c => if team_id ≠ "" && c.trusted_vendors.contains team_id then true else known_vendor₀
    | none => known_vendor₀
  let is_helper := is_system_helper_path program
  -- Rule 1: invalid code signature
  (match codesign_result with
   | some c =>
     if c.status = "fail" then
       let risk := if known_vendor then Risk.MED else Risk.HIGH
       [create_codesign_fail_finding launchd_item c
         (persistence_id_base ++ ":codesign_fail") "persistence" risk team_id]
     else []
   | none => []) ++
  -- Rule 2: Gatekeeper rejected
  (match spctl_result with
   | some s =>
     if s.status = "rejected" then
       let risk :=
         if is_signed && known_vendor && is_helper then Risk.MED
         else if is_signed && known_vendor then Risk.MED
         else Risk.HIGH
       [create_spctl_rejected_finding launchd_item s
         (persistence_id_base ++ ":spctl_rejected") "persistence" risk team_id]
     else []
   | none => []) ++
  -- Rule 3: daemon with user-writable path
  (if scope = "daemon" && is_user_writable_path program then
    [create_user_writable_daemon_finding launchd_item
      (persistence_id_base ++ ":user_writable")]
  else []) ++
  -- Rule 4: quarantined (+/- RunAtLoad)
  (let run_at_load := launchd_item.run_at_load.getD false
   match quarantine_result with
   | some q =>
     if q.is_quarantined = "true" then
       let quarantine_value := q.value
       if trustHomebrewSkip config quarantine_value then []
       else if run_at_load then
         [create_quarantined_persistence_finding launchd_item q
           (persistence_id_base ++ ":quarantined") true]
       else
         [create_quarantined_persistence_finding launchd_item q
           (persistence_id_base ++ ":quarantined_only") false]
     else []
   | none => [])

/-- The `SUSPICIOUS_PERMISSIONS` table (permission → description). -/
def SUSPICIOUS_PERMISSIONS : List (String × String) :=
  [("tabs", "Access browser tabs"),
   ("history", "Access browsing history"),
   ("cookies", "Access cookies"),
   ("webRequest", "Intercept web requests"),
   ("webRequestBlocking", "Block/modify web requests"),
   ("proxy", "Control proxy settings"),
   ("debugger", "Attach debugger to pages"),
   ("management", "Manage other extensions"),
   ("nativeMessaging", "Communicate with native apps"),
   ("privacy", "Modify privacy settings"),
   ("clipboardRead", "Read clipboard"),
   ("clipboardWrite", "Write to clipboard"),
   ("downloads", "Manage downloads"),
   ("geolocation", "Access location"),
   ("notifications", "Show notifications")]

/-- The `HIGH_RISK_PERMISSIONS` set. -/
def HIGH_RISK_PERMISSIONS : List String :=
  ["webRequestBlocking", "debugger", "proxy", "management", "nativeMessaging",
   "privacy"]

/-- Helper `_identify_suspicious_extension_permissions`. -/
def identify_suspicious_extension_permissions (permissions : List String) : List String :=
  permissions.filterMap (fun perm => SUSPICIOUS_PERMISSIONS.lookup perm)

/-- Helper `_identify_high_risk_extension_permissions`. -/
def identify_high_risk_extension_permissions (permissions : List String) : List String :=
  permissions.filterMap (fun perm =>
    if HIGH_RISK_PERMISSIONS.contains perm then
      some ((SUSPICIOUS_PERMISSIONS.lookup perm).getD perm)
    else none)

/-- Helper `_has_broad_host_access`. -/
def has_broad_host_access (host_permissions : List String) : Bool :=
  host_permissions.any (fun host =>
    ["<all_urls>", "*://*/*", "http://*/*", "https://*/*"].contains host ||
      2 ≤ host.data.count '*')

/-- Helper `_create_high_risk_extension_finding`. -/
def create_high_risk_extension_finding (extension : ExtensionRecord)
    (finding_id : String) (high_risk_perms : List String)
    (all_perms : List String) : Finding :=
  let name := pyGetOr extension.name "Unknown"
  let browser := pyCapitalize (pyGetOr extension.browser "unknown")
  let path := pyGetOr extension.manifest_path ""
  let perms_list := joinCommaSpace high_risk_perms
  { id := finding_id
    category := "browser_extension"
    risk := Risk.HIGH
    title := "High-risk " ++ browser ++ " extension: " ++ name
    details := browser ++ " extension \x27" ++ name ++ "\x27 has high-risk permissions: " ++
      perms_list ++
      ". These permissions can be exploited to intercept web traffic, inject malicious code, or compromise your browsing security."
    path := some path
    evidence :=
      [("browser", pyLower browser),
       ("extension_name", name),
       ("high_risk_permissions", perms_list),
       ("all_permissions", joinCommaSpace all_perms),
       ("extension_id", pyGetOr extension.id "")]
    recommendation :=
      "Review whether this extension is necessary and from a trusted source. Extensions with these permissions can intercept and modify all web traffic, inject code into pages, or weaken security settings. Remove if untrusted or no longer needed." }

/-- Helper `_create_broad_access_extension_finding`. -/
def create_broad_access_extension_finding (extension : ExtensionRecord)
    (finding_id : String) (host_permissions : List String) : Finding :=
  let name := pyGetOr extension.name "Unknown"
  let browser := pyCapitalize (pyGetOr extension.browser "unknown")
  let path := pyGetOr extension.manifest_path ""
  let hosts_list₀ := joinCommaSpace (host_permissions.take 5)
  let hosts_list :=
    if 5 < host_permissions.length then
      hosts_list₀ ++ ", ... (" ++ toString host_permissions.length ++ " total)"
    else hosts_list₀
  { id := finding_id
    category := "browser_extension"
    risk := Risk.MED
    title := "Broad access " ++ browser ++ " extension: " ++ name
    details := browser ++ " extension \x27" ++ name ++
      "\x27 has access to all websites or very broad URL patterns. This extension can read and modify content on any page you visit."
    path := some path
    evidence :=
      [("browser", pyLower browser),
       ("extension_name", name),
       ("host_permissions", hosts_list),
       ("extension_id", pyGetOr extension.id "")]
    recommendation :=
      "Verify this extension is from a trusted source and review its privacy policy. Extensions with broad host access can read passwords, credit card info, and personal data from any website you visit." }

/-- Helper `_create_suspicious_extension_finding`. -/
def create_suspicious_extension_finding (extension : ExtensionRecord)
    (finding_id : String) (suspicious_perms : List String) : Finding :=
  let name := pyGetOr extension.name "Unknown"
  let browser := pyCapitalize (pyGetOr extension.browser "unknown")
  let path := pyGetOr extension.manifest_path ""
  let perms_list := joinCommaSpace suspicious_perms
  { id := finding_id
    category := "browser_extension"
    risk := Risk.MED
    title := "Suspicious " ++ browser ++ " extension: " ++ name
    details := browser ++ " extension \x27" ++ name ++
      "\x27 requests multiple sensitive permissions: " ++ perms_list ++
      ". The combination of these permissions could be used for tracking, data collection, or malicious activity."
    path := some path
    evidence :=
      [("browser", pyLower browser),
       ("extension_name", name),
       ("suspicious_permissions", perms_list),
       ("extension_id", pyGetOr extension.id "")]
    recommendation :=
      "Review whether this extension needs all these permissions. Consider alternatives with fewer permissions or remove if not essential." }

/-- Helper `_create_extension_info_finding`. -/
def create_extension_info_finding (extension : ExtensionRecord)
    (finding_id : String) (permissions : List String)
    (host_permissions : List String) : Finding :=
  let name := pyGetOr extension.name "Unknown"
  let browser := pyCapitalize (pyGetOr extension.browser "unknown")
  let path := pyGetOr extension.manifest_path ""
  let version := pyGetOr extension.version "unknown"
  let perm_count := permissions.length + host_permissions.length
  { id := finding_id
    category := "browser_extension"
    risk := Risk.INFO
    title := browser ++ " extension: " ++ name
    details := browser ++ " extension \x27" ++ name ++ "\x27 (v" ++ version ++
      ") is installed with " ++ toString perm_count ++
      " permissions. Browser extensions can access sensitive data and modify web pages."
    path := some path
    evidence :=
      [("browser", pyLower browser),
       ("extension_name", name),
       ("version", version),
       ("permissions", if !permissions.isEmpty then joinCommaSpace permissions else "None"),
       ("host_permissions",
         if !host_permissions.isEmpty then joinCommaSpace (host_permissions.take 3) else "None"),
       ("extension_id", pyGetOr extension.id "")]
    recommendation :=
      "Periodically review installed browser extensions and remove those no longer needed. Only install extensions from trusted sources." }

/-- Rule engine `rules.analyze_browser_extension`. -/
def analyze_browser_extension (extension : ExtensionRecord)
    (config : Option Config) : List Finding :=
  let browser := pyGetOr extension.browser "unknown"
  let ext_id := pyGetOr extension.id "unknown"
  let ext_id_base := "browser_ext:" ++ browser ++ ":" ++ ext_id
  let permissions := extension.permissions
  let host_permissions := extension.host_permissions
  let suspicious_perms := identify_suspicious_extension_permissions permissions
  let high_risk_perms := identify_high_risk_extension_permissions permissions
  -- Rule 1: high-risk permissions
  (if !high_risk_perms.isEmpty then
    [create_high_risk_extension_finding extension
      (ext_id_base ++ ":high_risk_permissions") high_risk_perms permissions]
  else []) ++
  -- Rule 2: broad host access
  (if has_broad_host_access host_permissions then
    [create_broad_access_extension_finding extension
      (ext_id_base ++ ":broad_access") host_permissions]
  else []) ++
  -- Rule 3: multiple suspicious permissions
  (if 3 ≤ suspicious_perms.length then
    [create_suspicious_extension_finding extension
      (ext_id_base ++ ":suspicious_permissions") suspicious_perms]
  else []) ++
  -- Rule 4: basic extension info
  (if !permissions.isEmpty || !host_permissions.isEmpty then
    [create_extension_info_finding extension (ext_id_base ++ ":info")
      permissions host_permissions]
  else [])

/-! ## engine.py -/

/-- Engine helper `_analyze_single_app`: collectors run only when the app
has an executable path; collector failures are modelled by the collector
functions returning `none`. -/
def analyze_single_app (env : CtxEnv)
    (codesign_verify : String → Option CodesignResult)
    (spctl_assess : String → Option SpctlResult)
    (get_quarantine : String → Option QuarantineResult)
    (app : ItemRecord) (config : Option Config) : List Finding :=
  let exec_path := pyGetOr app.exec_path ""
  if exec_path = "" then []
  else
    analyze_app env app (codesign_verify exec_path) (spctl_assess exec_path)
      (get_quarantine exec_path) none config

/-- Engine helper `_scan_and_analyze_apps`: a failure of the inventory
enumerator `scan_applications` (the `Except.error` case) is caught and
yields an empty finding list. -/
def scan_and_analyze_apps (env : CtxEnv)
    (codesign_verify : String → Option CodesignResult)
    (spctl_assess : String → Option SpctlResult)
    (get_quarantine : String → Option QuarantineResult)
    (config : Option Config)
    (scan_applications : Except Unit (List ItemRecord)) : List Finding :=
  match scan_applications with
  | .error _ => []
  | .ok apps =>
    apps.flatMap (fun app =>
      analyze_single_app env codesign_verify spctl_assess get_quarantine app config)

/-- Engine helper `_analyze_single_launchd`: collectors run only when the
item has a program path and the path exists on the filesystem
(`fs_exists`); otherwise the rules still run with all signals `None`. -/
def analyze_single_launchd (fs_exists : String → Bool)
    (codesign_verify : String → Option CodesignResult)
    (spctl_assess : String → Option SpctlResult)
    (get_quarantine : String → Option QuarantineResult)
    (item : ItemRecord) (config : Option Config) : List Finding :=
  let program := pyGetOr item.program ""
  if program = "" then analyze_launchd item none none none config
  else if !fs_exists program then analyze_launchd item none none none config
  else
    analyze_launchd item (codesign_verify program) (spctl_assess program)
      (get_quarantine program) config

/-- Engine helper `_scan_and_analyze_launchd`: an inventory failure of
`scan_launchd` is caught and yields an empty finding list. -/
def scan_and_analyze_launchd (fs_exists : String → Bool)
    (codesign_verify : String → Option CodesignResult)
    (spctl_assess : String → Option SpctlResult)
    (get_quarantine : String → Option QuarantineResult)
    (config : Option Config)
    (scan_launchd : Except Unit (List ItemRecord)) : List Finding :=
  match scan_launchd with
  | .error _ => []
  | .ok items =>
    items.flatMap (fun item =>
      analyze_single_launchd fs_exists codesign_verify spctl_assess get_quarantine
        item config)

/-- Engine helper `_apply_config_filters`; `re_match pattern id` models the
truthiness of Python `re.match(pattern, finding.id)`. -/
def apply_config_filters (re_match : String → String → Bool)
    (findings : List Finding) (config : Config) : List Finding :=
  match findings with
  | [] => []
  | finding :: rest =>
    if config.ignore_findings.contains finding.id then
      apply_config_filters re_match rest config
    else if config.ignore_patterns.any (fun pattern => re_match pattern finding.id) then
      apply_config_filters re_match rest config
    else
      finding :: apply_config_filters re_match rest config

/-- Scan orchestrator `engine.run_scan`.  `get_host_info` is the one call
whose failure propagates to the caller (hence the `Except` result);
inventory enumeration failures for either category are caught inside the
two `_scan_and_analyze_*` helpers.  `timestamp` stands for
`datetime.utcnow().isoformat() + "Z"`. -/
def run_scan (env : CtxEnv) (fs_exists : String → Bool)
    (codesign_verify : String → Option CodesignResult)
    (spctl_assess : String → Option SpctlResult)
    (get_quarantine : String → Option QuarantineResult)
    (re_match : String → String → Bool)
    (get_host_info : Except Unit HostInfo) (timestamp : String)
    (scan_applications : Except Unit (List ItemRecord))
    (scan_launchd : Except Unit (List ItemRecord))
    (config : Option Config) : Except Unit ScanReport :=
  match get_host_info with
  | .error e => .error e
  | .ok host =>
    let app_findings :=
      scan_and_analyze_apps env codesign_verify spctl_assess get_quarantine config
        scan_applications
    let launchd_findings :=
      scan_and_analyze_launchd fs_exists codesign_verify spctl_assess get_quarantine
        config scan_launchd
    let all_findings := app_findings ++ launchd_findings
    let all_findings :=
      match config with
      | some cfg => apply_config_filters re_match all_findings cfg
      | none => all_findings
    .ok { schema_version := "0.1"
          host := host
          timestamp := timestamp
          findings := pySortedFindings all_findings }

/-! ## baseline.py -/

/-- One value of the persisted `findings` mapping of a baseline snapshot. -/
structure BaselineEntry where
  risk : String
  title : String
  path : Option String
  category : String
  timestamp : String
deriving DecidableEq, Repr

/-- Insertion into a Python dict under construction: an existing key keeps
its position and gets the new value, a new key is appended. -/
def pyDictInsert {β : Type} (d : List (String × β)) (k : String) (v : β) :
    List (String × β) :=
  if d.any (fun p => p.1 == k) then d.map (fun p => if p.1 == k then (k, v) else p)
  else d ++ [(k, v)]

/-- A Python dict comprehension over a sequence of key-value pairs
(later pairs overwrite earlier ones with the same key). -/
def pyDictOfList {β : Type} (l : List (String × β)) : List (String × β) :=
  l.foldl (fun d p => pyDictInsert d p.1 p.2) []

/-- One entry of the dict comprehension inside `Baseline.save`. -/
def baseline_entry_of (report_timestamp : String) (f : Finding) : BaselineEntry :=
  { risk := riskValue f.risk
    title := f.title
    path := f.path
    category := f.category
    timestamp := report_timestamp }

/-- The `findings` mapping written by `Baseline.save(report)` (and read
back unchanged by `Baseline.load`, the JSON file round trip being
faithful for this string-keyed mapping). -/
def baseline_save (report : ScanReport) : List (String × BaselineEntry) :=
  pyDictOfList (report.findings.map (fun f => (f.id, baseline_entry_of report.timestamp f)))

/-- Baseline differ `Baseline.filter_new_findings`; the first argument is
the loaded snapshot's `findings` mapping. -/
def filter_new_findings (baselineFindings : List (String × BaselineEntry))
    (findings : List Finding) : List Finding :=
  if baselineFindings.isEmpty then findings
  else
    findings.filter (fun finding =>
      match baselineFindings.lookup finding.id with
      | none => true
      | some entry => entry.risk != riskValue finding.risk)


/-! ## Test fixtures (concrete inputs used by closed theorems) -/

/-- Fixture host. -/
def hostFixture : HostInfo :=
  { os_version := "14.2.1", build := "23C71", arch := "arm64", hostname := "mac" }

/-- Fixture finding with the given id and risk. -/
def mkFinding (id : String) (risk : Risk) (title : String) : Finding :=
  { id := id, category := "app", risk := risk, title := title, details := "d",
    path := none, evidence := [], recommendation := "r" }

/-- Fixture context environment returning fixed facts for every path. -/
def constEnv (facts : AppCtxFacts) : CtxEnv := fun _ => facts

/-- Spec-side severity ladder for the codesign-fail app rule, stated in the
specification's vocabulary (as amended): LOW exactly when the artifact has
a path, is not from a managed app-store distribution, the age-trust policy
is enabled and the artifact is at least the configured threshold old;
otherwise MED when the publisher is known/trusted or the app is from a
managed app-store distribution; otherwise HIGH.  Compared against
`analyze_app` by the C4 theorem. -/
def codesignFailSeveritySpec (env : CtxEnv) (app : ItemRecord) (c : CodesignResult)
    (cfg : Option Config) : Risk :=
  let path := pyOrStr app.exec_path (pyGetOr app.app_path "")
  let knownPublisher :=
    (c.team_id ≠ "" && is_known_vendor c.team_id) ||
      (match cfg with
       | some cf => c.team_id ≠ "" && cf.trusted_vendors.contains c.team_id
       | none => false)
  let appStore := path ≠ "" && (env path).is_app_store
  let agePolicy :=
    path ≠ "" && !(env path).is_app_store &&
      (match cfg with
       | some cf => cf.trust_old_apps && decide (cf.old_app_days ≤ (env path).age_days)
       | none => false)
  if agePolicy then Risk.LOW
  else if knownPublisher || appStore then Risk.MED
  else Risk.HIGH

/-! ## Helper lemmas -/

theorem string_data_append (a b : String) : (a ++ b).data = a.data ++ b.data := by
  cases a; cases b; rfl

theorem string_append_assoc (a b c : String) : a ++ b ++ c = a ++ (b ++ c) := by
  cases a; cases b; cases c
  show String.mk _ = String.mk _
  rw [List.append_assoc]

theorem pyStartsWith_append_left (p s : String) : pyStartsWith (p ++ s) p = true := by
  unfold pyStartsWith
  rw [string_data_append, List.isPrefixOf_iff_prefix]
  exact List.prefix_append p.data s.data

theorem mem_ite_singleton {α : Type} {c : Prop} [Decidable c] {x a : α}
    (h : x ∈ (if c then [a] else ([] : List α))) : x = a := by
  split at h
  · exact List.mem_singleton.mp h
  · simp at h

/-! ## Claim theorems -/

/-- C2 (failing input): a daemon whose program is `/Users/bob/bin/x` yields
no finding at all — in particular no
`persistence:daemon:x:user_writable` HIGH finding — because
`is_user_writable_path` lower-cases the path before comparing it with the
capitalised prefix `"/Users/"`, which therefore never matches. -/
theorem daemon_user_writable_rule_misses_users_path :
    analyze_launchd
      { scope := some "daemon", label := some "x", program := some "/Users/bob/bin/x" }
      none none none none = [] ∧
    is_user_writable_path "/Users/bob/bin/x" = false := by
  constructor
  · rfl
  · rfl

/-- C1 (failing input): a scan over one unsigned-unknown app (HIGH finding)
and one verified Microsoft app (INFO finding) returns the report with the
INFO finding first and the HIGH finding last, i.e. severity ranks `[3, 0]`:
the reversed `Risk.__lt__` makes Python's ascending sort put INFO first,
contrary to the "highest first" contract. -/
theorem run_scan_orders_info_before_high :
    (run_scan (constEnv ⟨false, 0⟩) (fun _ => false)
        (fun p => if p = "/a" then some { status := "fail" }
          else if p = "/b" then some { status := "ok", team_id := "UBF8T346G9" } else none)
        (fun p => if p = "/b" then some { status := "accepted" } else none)
        (fun _ => none) (fun _ _ => false) (.ok hostFixture) "ts"
        (.ok [{ bundle_id := some "a1", name := some "a", exec_path := some "/a" },
              { bundle_id := some "b1", name := some "b", exec_path := some "/b" }])
        (.ok []) none).map
        (fun r => r.findings.map (fun f => riskOrder f.risk)) = Except.ok [3, 0] ∧
    ¬ riskOrder Risk.INFO ≤ riskOrder Risk.HIGH := by
  constructor
  · rfl
  · decide

/-- C3 (counterexample): when inventory enumeration fails for *both*
artifact categories, `run_scan` does not surface any error to the caller;
it completes and returns an ordinary report with zero findings, refuting
"surfaces a fatal scan error exactly when inventory enumeration fails for
every artifact category". -/
theorem run_scan_total_inventory_failure_not_fatal :
    run_scan (constEnv ⟨false, 0⟩) (fun _ => false) (fun _ => none) (fun _ => none)
      (fun _ => none) (fun _ _ => false) (.ok hostFixture) "ts"
      (.error ()) (.error ()) none =
      .ok { schema_version := "0.1", host := hostFixture, timestamp := "ts",
            findings := [] } := by
  rfl

/-- C4 (counterexample): an app with a failed signature, an *unknown*
publisher (empty team id), not from the App Store, older than the
configured stability threshold and with the age-trust policy enabled gets
severity LOW — refuting "LOW only when the publisher is known AND ...". -/
theorem codesign_fail_low_for_unknown_publisher :
    ((analyze_app (constEnv ⟨false, 100⟩)
        { bundle_id := some "x", name := some "x", exec_path := some "/a" }
        (some { status := "fail" }) none none none
        (some { trust_old_apps := true })).map (fun f => (f.id, f.risk)) =
      [("app:x:codesign_fail", Risk.LOW)]) ∧
    is_known_vendor "" = false := by
  constructor
  · rfl
  · rfl

/-- C5 (counterexample): a Chrome extension holding the `debugger`
permission produces findings whose category is `browser_extension` but
whose ids begin with `browser_ext:`, not with `browser_extension:` — the
first colon-separated segment of the id differs from the category. -/
theorem browser_extension_id_prefix_mismatch :
    ((analyze_browser_extension
        { browser := some "chrome", id := some "abcd", name := some "Ext",
          manifest_path := some "/m", permissions := ["debugger"] } none).map
        (fun f => (f.category, f.id)) =
      [("browser_extension", "browser_ext:chrome:abcd:high_risk_permissions"),
       ("browser_extension", "browser_ext:chrome:abcd:info")]) ∧
    pyStartsWith "browser_ext:chrome:abcd:high_risk_permissions" "browser_extension:"
      = false := by
  constructor
  · rfl
  · rfl

/-- C6 (counterexample): with the artifact record, collector results and
configuration all held fixed, `analyze_app` returns different findings
under two different ambient system states (an app aged 100 days versus 0
days): the severity of the codesign-fail finding flips between LOW and
HIGH.  The context is derived inside `analyze_app` by filesystem and clock
reads, so the rule engine is not I/O-free and its output is not a function
of the four inputs named by the claim. -/
theorem analyze_app_output_depends_on_environment :
    analyze_app (constEnv ⟨false, 100⟩)
      { bundle_id := some "x", name := some "x", exec_path := some "/a" }
      (some { status := "fail" }) none none none (some { trust_old_apps := true }) ≠
    analyze_app (constEnv ⟨false, 0⟩)
      { bundle_id := some "x", name := some "x", exec_path := some "/a" }
      (some { status := "fail" }) none none none (some { trust_old_apps := true }) := by
  decide

/-- C8 (counterexample): a report containing two findings that share the
id `t` with different severities does not round-trip: the saved snapshot
keeps only the last severity for `t`, so diffing the same findings against
it reports the HIGH one as changed. -/
theorem baseline_round_trip_fails_on_duplicate_ids :
    filter_new_findings
      (baseline_save
        { schema_version := "0.1", host := hostFixture, timestamp := "ts",
          findings := [mkFinding "t" Risk.HIGH "a", mkFinding "t" Risk.LOW "b"] })
      [mkFinding "t" Risk.HIGH "a", mkFinding "t" Risk.LOW "b"] ≠ [] := by
  decide

/-- C3 (amended): inventory failure is never fatal.  With host information
available, `run_scan` always returns a report; an inventory-enumeration
failure for the application category (respectively the launchd category)
behaves exactly as if that category had enumerated no artifacts, leaving
the other category's findings — and the rest of the scan — unchanged. -/
theorem run_scan_inventory_failure_contained :
    (∀ (env : CtxEnv) (fs : String → Bool) (cs : String → Option CodesignResult)
      (sp : String → Option SpctlResult) (q : String → Option QuarantineResult)
      (rm : String → String → Bool) (host : HostInfo) (ts : String)
      (appsInv launchdInv : Except Unit (List ItemRecord)) (cfg : Option Config),
      ∃ r, run_scan env fs cs sp q rm (.ok host) ts appsInv launchdInv cfg = .ok r) ∧
    (∀ env fs cs sp q rm host ts launchdInv cfg,
      run_scan env fs cs sp q rm (.ok host) ts (.error ()) launchdInv cfg =
        run_scan env fs cs sp q rm (.ok host) ts (.ok []) launchdInv cfg) ∧
    (∀ env fs cs sp q rm host ts appsInv cfg,
      run_scan env fs cs sp q rm (.ok host) ts appsInv (.error ()) cfg =
        run_scan env fs cs sp q rm (.ok host) ts appsInv (.ok []) cfg) := by
  refine ⟨?_, ?_, ?_⟩
  · intro env fs cs sp q rm host ts appsInv launchdInv cfg
    exact ⟨_, rfl⟩
  · intro env fs cs sp q rm host ts launchdInv cfg
    rfl
  · intro env fs cs sp q rm host ts appsInv cfg
    rfl

/-- C9: the filter pipeline `_apply_config_filters` equals a `List.filter`
that drops exactly the findings whose id is in the exact-suppression list
or matches at least one suppression pattern (union semantics); every other
finding passes through unchanged, in its original relative order (the
result is a sublist of the input). -/
theorem apply_config_filters_union_semantics :
    ∀ (re_match : String → String → Bool) (findings : List Finding) (config : Config),
      apply_config_filters re_match findings config =
        findings.filter (fun f =>
          !(config.ignore_findings.contains f.id ||
            config.ignore_patterns.any (fun pattern => re_match pattern f.id))) ∧
      (∀ f, f ∈ apply_config_filters re_match findings config ↔
        f ∈ findings ∧
          ¬(f.id ∈ config.ignore_findings ∨
            ∃ pattern ∈ config.ignore_patterns, re_match pattern f.id = true)) ∧
      List.Sublist (apply_config_filters re_match findings config) findings := by
  intro re_match findings config
  have hfil : apply_config_filters re_match findings config =
      findings.filter (fun f =>
        !(config.ignore_findings.contains f.id ||
          config.ignore_patterns.any (fun pattern => re_match pattern f.id))) := by
    induction findings with
    | nil => rfl
    | cons f rest ih =>
      cases h1 : config.ignore_findings.contains f.id
      · cases h2 : config.ignore_patterns.any (fun pattern => re_match pattern f.id)
        · simp at h1 h2
          have hne : ¬ ∃ x ∈ config.ignore_patterns, re_match x f.id = true := by
            rintro ⟨x, hx, hrm⟩
            rw [h2 x hx] at hrm
            exact absurd hrm (by simp)
          simp [apply_config_filters, h1, h2, ih, List.filter_cons, hne]
          rw [if_pos h2]
        · simp at h1 h2
          simp [apply_config_filters, h1, h2, ih, List.filter_cons]
      · simp at h1
        simp [apply_config_filters, h1, ih, List.filter_cons]
  refine ⟨hfil, ?_, ?_⟩
  · intro f
    rw [hfil, List.mem_filter]
    simp [List.any_eq_true, not_or]
  · rw [hfil]
    exact List.filter_sublist _

/-- C7: a current finding is in the baseline diff exactly when its id is
absent from the snapshot mapping or present with a recorded severity
different from the finding's current severity; and on the concrete
scenario (baseline ids t1:HIGH and t2:MED; current scan t1:HIGH, t2:MED,
t3:HIGH) the diff returns exactly the t3 finding. -/
theorem filter_new_findings_membership :
    (∀ (baselineFindings : List (String × BaselineEntry)) (findings : List Finding)
      (f : Finding),
      f ∈ filter_new_findings baselineFindings findings ↔
        f ∈ findings ∧
          (baselineFindings.lookup f.id = none ∨
            ∃ entry, baselineFindings.lookup f.id = some entry ∧
              entry.risk ≠ riskValue f.risk)) ∧
    filter_new_findings
      [("t1", baseline_entry_of "ts" (mkFinding "t1" Risk.HIGH "a")),
       ("t2", baseline_entry_of "ts" (mkFinding "t2" Risk.MED "b"))]
      [mkFinding "t1" Risk.HIGH "a", mkFinding "t2" Risk.MED "b",
       mkFinding "t3" Risk.HIGH "c"] =
      [mkFinding "t3" Risk.HIGH "c"] := by
  constructor
  · intro b findings f
    unfold filter_new_findings
    cases hb : b.isEmpty
    · simp only [hb, Bool.false_eq_true, if_false, List.mem_filter]
      cases hl : b.lookup f.id
      · simp [hl]
      · simp [hl, bne_iff_ne]
    · have hbe : b = [] := List.isEmpty_iff.mp hb
      subst hbe
      simp [List.lookup]
  · rfl

/-- C6 (amended): `analyze_app` is deterministic once the trust context it
derives is included among the inputs: if two ambient system states agree on
the context facts for the artifact's own path, the findings — ids,
severities, titles, evidence — are identical.  (The context itself is
computed inside `analyze_app` from the filesystem and clock, so the
function is not I/O-free; see the counterexample.) -/
theorem analyze_app_deterministic_given_context (env₁ env₂ : CtxEnv)
    (app : ItemRecord) (cs : Option CodesignResult) (sp : Option SpctlResult)
    (qr : Option QuarantineResult) (ent : Option EntitlementsResult)
    (cfg : Option Config)
    (h : env₁ (pyOrStr app.exec_path (pyGetOr app.app_path "")) =
      env₂ (pyOrStr app.exec_path (pyGetOr app.app_path ""))) :
    analyze_app env₁ app cs sp qr ent cfg = analyze_app env₂ app cs sp qr ent cfg := by
  simp only [analyze_app, h]

/-- Witness for the C6 theorem at a concrete input: the two environments
below differ, but agree at the app's path `/w`, so the findings coincide. -/
theorem analyze_app_deterministic_given_context_witness :
    analyze_app (constEnv ⟨false, 1⟩)
      { bundle_id := some "w", exec_path := some "/w" } none none none none none =
    analyze_app (fun p => if p = "/zz" then ⟨true, 5⟩ else ⟨false, 1⟩)
      { bundle_id := some "w", exec_path := some "/w" } none none none none none :=
  analyze_app_deterministic_given_context _ _ _ _ _ _ _ _ (by decide)

/-- C4 (amended): for an app whose signature status is `fail`, `analyze_app`
emits the codesign-fail finding `app:<base>:codesign_fail`, and its severity
is exactly the ladder `codesignFailSeveritySpec`: LOW precisely when the
artifact is not from a managed app-store distribution, the age-trust policy
is enabled and the artifact is at least the configured threshold old
(publisher recognition is *not* required); otherwise MED when the publisher
is known/trusted or the app is from the App Store; otherwise HIGH. -/
theorem analyze_app_codesign_fail_severity (env : CtxEnv) (app : ItemRecord)
    (c : CodesignResult) (sp : Option SpctlResult) (qr : Option QuarantineResult)
    (ent : Option EntitlementsResult) (cfg : Option Config)
    (h : c.status = "fail") :
    ∃ f ∈ analyze_app env app (some c) sp qr ent cfg,
      f.id = "app:" ++ pyOrStr app.bundle_id (pyGetOr app.name "unknown") ++ ":codesign_fail" ∧
      f.risk = codesignFailSeveritySpec env app c cfg := by
  simp only [analyze_app, h, reduceIte]
  refine ⟨_, List.mem_append_left _ (List.mem_append_left _ (List.mem_append_left _
    (List.mem_append_left _ (List.mem_append_left _ (List.mem_singleton_self _))))),
    rfl, ?_⟩
  show (create_codesign_fail_finding _ _ _ _ _ _).risk = _
  simp only [create_codesign_fail_finding]
  simp only [codesignFailSeveritySpec]
  by_cases hp : pyOrStr app.exec_path (pyGetOr app.app_path "") = ""
  · simp only [hp, ne_eq, not_true_eq_false, if_false, decide_not, decide_True,
      Bool.not_true, Bool.false_and, Bool.and_false, Bool.or_false, if_false]
    cases cfg with
    | none =>
      by_cases ht : c.team_id = ""
      · simp [ht]
      · cases hkv : is_known_vendor c.team_id <;> simp [ht, hkv]
    | some cf =>
      by_cases ht : c.team_id = ""
      · simp [ht]
      · cases hct : cf.trusted_vendors.contains c.team_id <;>
          cases hkv : is_known_vendor c.team_id <;> simp [ht, hct, hkv]
  · simp only [hp, ne_eq, not_false_eq_true, if_true, decide_not]
    cases hstore : (env (pyOrStr app.exec_path (pyGetOr app.app_path ""))).is_app_store
    · cases cfg with
      | none =>
        by_cases ht : c.team_id = ""
        · simp [ht, hstore]
        · cases hkv : is_known_vendor c.team_id <;> simp [ht, hkv, hstore]
      | some cf =>
        cases hold : (cf.trust_old_apps && decide (cf.old_app_days ≤
            (env (pyOrStr app.exec_path (pyGetOr app.app_path ""))).age_days))
        · by_cases ht : c.team_id = ""
          · simp [ht, hstore, hold]
          · cases hct : cf.trusted_vendors.contains c.team_id <;>
              cases hkv : is_known_vendor c.team_id <;> simp [ht, hct, hkv, hstore, hold]
        · simp [hstore, hold, hp]
    · simp [hstore, hp]

/-- Witness for the C4 theorem at a concrete input with a failed signature. -/
theorem analyze_app_codesign_fail_severity_witness :
    ∃ f ∈ analyze_app (constEnv ⟨false, 100⟩)
        { bundle_id := some "y", name := some "y", exec_path := some "/y" }
        (some { status := "fail" }) none none none none,
      f.id = "app:" ++
        pyOrStr (ItemRecord.bundle_id
          { bundle_id := some "y", name := some "y", exec_path := some "/y" })
          (pyGetOr (ItemRecord.name
            { bundle_id := some "y", name := some "y", exec_path := some "/y" }) "unknown") ++
        ":codesign_fail" ∧
      f.risk = codesignFailSeveritySpec (constEnv ⟨false, 100⟩)
        { bundle_id := some "y", name := some "y", exec_path := some "/y" }
        { status := "fail" } none :=
  analyze_app_codesign_fail_severity (constEnv ⟨false, 100⟩)
    { bundle_id := some "y", name := some "y", exec_path := some "/y" }
    { status := "fail" } none none none none rfl

/-- C10: for a quarantined persistence item not suppressed by the Homebrew
trust toggle, `analyze_launchd` emits `<base>:quarantined` with severity
MED when `run_at_load` is true but `<base>:quarantined_only` with severity
LOW when it is false; the two ids differ, so against a baseline recording
the `run_at_load = true` finding, the baseline differ reports the
`run_at_load = false` finding as new (an identity change, not a severity
change on one id). -/
theorem quarantined_persistence_finding_identity (item : ItemRecord)
    (cs : Option CodesignResult) (sp : Option SpctlResult) (q : QuarantineResult)
    (cfg : Option Config) (ts : String)
    (hq : q.is_quarantined = "true")
    (hskip : trustHomebrewSkip cfg q.value = false) :
    ∃ f ∈ analyze_launchd { item with run_at_load := some true } cs sp (some q) cfg,
      f.id = "persistence:" ++ pyGetOr item.scope "unknown" ++ ":" ++
        pyGetOr item.label "unknown" ++ ":quarantined" ∧
      f.risk = Risk.MED ∧
      ∃ g ∈ analyze_launchd { item with run_at_load := some false } cs sp (some q) cfg,
        g.id = "persistence:" ++ pyGetOr item.scope "unknown" ++ ":" ++
          pyGetOr item.label "unknown" ++ ":quarantined_only" ∧
        g.risk = Risk.LOW ∧
        f.id ≠ g.id ∧
        filter_new_findings [(f.id, baseline_entry_of ts f)] [g] = [g] := by
  have hne : ("persistence:" ++ pyGetOr item.scope "unknown" ++ ":" ++
      pyGetOr item.label "unknown" ++ ":quarantined" : String) ≠
      "persistence:" ++ pyGetOr item.scope "unknown" ++ ":" ++
      pyGetOr item.label "unknown" ++ ":quarantined_only" := by
    intro heq
    have hd := congrArg String.data heq
    rw [string_data_append, string_data_append] at hd
    exact absurd (List.append_cancel_left hd) (by decide)
  simp only [analyze_launchd, hq, hskip, reduceIte, Option.getD]
  refine ⟨_, List.mem_append_right _ (List.mem_singleton_self _), rfl, rfl,
    _, List.mem_append_right _ (List.mem_singleton_self _), rfl, rfl, ?_, ?_⟩
  · exact hne
  · have hne' : (("persistence:" ++ pyGetOr item.scope "unknown" ++ ":" ++
        pyGetOr item.label "unknown" ++ ":quarantined_only" : String) ==
        ("persistence:" ++ pyGetOr item.scope "unknown" ++ ":" ++
        pyGetOr item.label "unknown" ++ ":quarantined" : String)) = false :=
      beq_eq_false_iff_ne.mpr (Ne.symm hne)
    simp [filter_new_findings, List.lookup, hne', create_quarantined_persistence_finding,
      baseline_entry_of]

/-- Witness for the C10 theorem on a concrete quarantined user agent. -/
theorem quarantined_persistence_finding_identity_witness :
    ∃ f ∈ analyze_launchd
        { scope := some "user", label := some "l", program := some "/p",
          run_at_load := some true } none none (some { is_quarantined := "true" }) none,
      f.id = "persistence:" ++ pyGetOr (some "user") "unknown" ++ ":" ++
        pyGetOr (some "l") "unknown" ++ ":quarantined" ∧
      f.risk = Risk.MED ∧
      ∃ g ∈ analyze_launchd
          { scope := some "user", label := some "l", program := some "/p",
            run_at_load := some false } none none (some { is_quarantined := "true" }) none,
        g.id = "persistence:" ++ pyGetOr (some "user") "unknown" ++ ":" ++
          pyGetOr (some "l") "unknown" ++ ":quarantined_only" ∧
        g.risk = Risk.LOW ∧
        f.id ≠ g.id ∧
        filter_new_findings [(f.id, baseline_entry_of "T" f)] [g] = [g] :=
  quarantined_persistence_finding_identity
    { scope := some "user", label := some "l", program := some "/p" }
    none none { is_quarantined := "true" } none "T" rfl rfl
/-- Inserting a fresh key appends it. -/
theorem pyDictInsert_of_not_mem {β : Type} (d : List (String × β)) (k : String) (v : β)
    (h : k ∉ d.map Prod.fst) : pyDictInsert d k v = d ++ [(k, v)] := by
  have hany : ¬ (d.any (fun p => p.1 == k) = true) := by
    intro hc
    rw [List.any_eq_true] at hc
    obtain ⟨p, hp, hpk⟩ := hc
    have hk : p.1 = k := by simpa using hpk
    exact h (hk ▸ List.mem_map_of_mem Prod.fst hp)
  unfold pyDictInsert
  rw [if_neg hany]

/-- A dict built from pairs with pairwise-distinct keys is the pair list itself. -/
theorem pyDictOfList_aux {β : Type} :
    ∀ (l acc : List (String × β)),
      ((acc ++ l).map Prod.fst).Nodup →
      l.foldl (fun d p => pyDictInsert d p.1 p.2) acc = acc ++ l := by
  intro l
  induction l with
  | nil =>
    intro acc _
    simp
  | cons p rest ih =>
    intro acc h
    have hmap : ((acc ++ p :: rest).map Prod.fst) =
        acc.map Prod.fst ++ p.1 :: rest.map Prod.fst := by simp
    rw [hmap] at h
    have hknotin : p.1 ∉ acc.map Prod.fst := by
      rcases List.nodup_append.mp h with ⟨_, _, hdisj⟩
      intro hmem
      exact hdisj hmem (List.mem_cons_self _ _)
    have hins : pyDictInsert acc p.1 p.2 = acc ++ [p] :=
      pyDictInsert_of_not_mem acc p.1 p.2 hknotin
    rw [List.foldl_cons, hins, ih (acc ++ [p]) (by simpa using h)]
    simp

/-- Lookup in a saved snapshot with distinct ids finds each finding. -/
theorem lookup_map_baseline (ts : String) :
    ∀ (l : List Finding) (f : Finding),
      (l.map Finding.id).Nodup → f ∈ l →
      (l.map (fun g => (g.id, baseline_entry_of ts g))).lookup f.id =
        some (baseline_entry_of ts f) := by
  intro l
  induction l with
  | nil =>
    intro f _ hf
    simp at hf
  | cons g rest ih =>
    intro f hnd hf
    rw [List.map_cons] at hnd
    have hnd' := List.nodup_cons.mp hnd
    rcases List.mem_cons.mp hf with hfg | hfr
    · subst hfg
      simp [List.lookup]
    · have hneq : f.id ≠ g.id := by
        intro he
        exact hnd'.1 (he ▸ List.mem_map_of_mem Finding.id hfr)
      have hbe : (f.id == g.id) = false := beq_eq_false_iff_ne.mpr hneq
      simp only [List.map_cons, List.lookup, hbe]
      exact ih f hnd'.2 hfr

/-- C8 (amended): baseline round-trip is empty for any report whose
findings carry pairwise-distinct ids: saving the report, loading the
snapshot back and diffing the very findings that were saved yields no new
or changed finding.  (With duplicate ids of differing severities the dict
comprehension in save keeps only the last severity and the round trip is
not empty; see the counterexample.) -/
theorem baseline_round_trip_empty (report : ScanReport)
    (h : (report.findings.map Finding.id).Nodup) :
    filter_new_findings (baseline_save report) report.findings = [] := by
  have hkeys : ((report.findings.map
      (fun f => (f.id, baseline_entry_of report.timestamp f))).map Prod.fst).Nodup := by
    rw [List.map_map]
    simpa [Function.comp] using h
  have hsave : baseline_save report =
      report.findings.map (fun f => (f.id, baseline_entry_of report.timestamp f)) := by
    unfold baseline_save pyDictOfList
    simpa using pyDictOfList_aux _ [] (by simpa using hkeys)
  rw [hsave]
  by_cases hemp : report.findings = []
  · rw [hemp]
    rfl
  · have hne : ((report.findings.map
        (fun f => (f.id, baseline_entry_of report.timestamp f))).isEmpty) = false := by
      cases hfe : report.findings with
      | nil => exact absurd hfe hemp
      | cons g rest => simp [hfe]
    unfold filter_new_findings
    simp only [hne, Bool.false_eq_true, if_false]
    apply List.filter_eq_nil_iff.mpr
    intro f hf
    have hl := lookup_map_baseline report.timestamp report.findings f h hf
    simp only [hl]
    simp [baseline_entry_of]

/-- Witness for the C8 theorem on a concrete two-finding report with
distinct ids. -/
theorem baseline_round_trip_empty_witness :
    ((({ schema_version := "0.1", host := hostFixture, timestamp := "ts",
         findings := [mkFinding "a" Risk.HIGH "t", mkFinding "b" Risk.MED "u"] } :
          ScanReport).findings.map Finding.id).Nodup) ∧
    filter_new_findings
      (baseline_save
        { schema_version := "0.1", host := hostFixture, timestamp := "ts",
          findings := [mkFinding "a" Risk.HIGH "t", mkFinding "b" Risk.MED "u"] })
      [mkFinding "a" Risk.HIGH "t", mkFinding "b" Risk.MED "u"] = [] :=
  ⟨by decide, baseline_round_trip_empty _ (by decide)⟩
/-- A string starting with `browser_ext:` cannot start with `browser_extension:`. -/
theorem pyStartsWith_browser_extension_false (s : String)
    (h : pyStartsWith s "browser_ext:" = true) :
    pyStartsWith s "browser_extension:" = false := by
  by_contra hc
  rw [Bool.not_eq_false] at hc
  unfold pyStartsWith at h hc
  rw [List.isPrefixOf_iff_prefix] at h hc
  have hle : ("browser_ext:".data).length ≤ ("browser_extension:".data).length := by decide
  have hpp := List.prefix_of_prefix_length_le h hc hle
  exact absurd hpp (by decide)

/-- C5 (amended): every finding id is a deterministic composite built
from the artifact key and the rule name.  For app and persistence findings
the first colon-separated segment of the id equals the category field; for
browser-extension findings the id instead begins with `browser_ext:` while
the category field is `browser_extension`, so there the first segment does
not equal the category. -/
theorem finding_id_category_composite :
    (∀ (env : CtxEnv) (app : ItemRecord) (cs : Option CodesignResult)
      (sp : Option SpctlResult) (qr : Option QuarantineResult)
      (ent : Option EntitlementsResult) (cfg : Option Config) (f : Finding),
      f ∈ analyze_app env app cs sp qr ent cfg →
      f.category = "app" ∧ pyStartsWith f.id "app:" = true) ∧
    (∀ (item : ItemRecord) (cs : Option CodesignResult) (sp : Option SpctlResult)
      (qr : Option QuarantineResult) (cfg : Option Config) (f : Finding),
      f ∈ analyze_launchd item cs sp qr cfg →
      f.category = "persistence" ∧ pyStartsWith f.id "persistence:" = true) ∧
    (∀ (ext : ExtensionRecord) (cfg : Option Config) (f : Finding),
      f ∈ analyze_browser_extension ext cfg →
      f.category = "browser_extension" ∧ pyStartsWith f.id "browser_ext:" = true ∧
      pyStartsWith f.id "browser_extension:" = false) := by
  refine ⟨?_, ?_, ?_⟩
  · intro env app cs sp qr ent cfg f hf
    simp only [analyze_app, List.mem_append] at hf
    rcases hf with ((((hf | hf) | hf) | hf) | hf) | hf <;>
      repeat' split at hf
    all_goals
      first
        | exact absurd hf (List.not_mem_nil _)
        | (rw [List.mem_singleton] at hf
           subst hf
           refine ⟨rfl, ?_⟩
           simp only [create_codesign_fail_finding, create_spctl_rejected_finding,
             create_quarantined_app_finding, create_verified_app_finding,
             create_high_risk_entitlements_finding, create_sensitive_entitlements_finding,
             string_append_assoc]
           exact pyStartsWith_append_left _ _)
  · intro item cs sp qr cfg f hf
    simp only [analyze_launchd, List.mem_append] at hf
    rcases hf with ((hf | hf) | hf) | hf <;>
      repeat' split at hf
    all_goals
      first
        | exact absurd hf (List.not_mem_nil _)
        | (rw [List.mem_singleton] at hf
           subst hf
           refine ⟨rfl, ?_⟩
           simp only [create_codesign_fail_finding, create_spctl_rejected_finding,
             create_user_writable_daemon_finding, create_quarantined_persistence_finding,
             string_append_assoc]
           exact pyStartsWith_append_left _ _)
  · intro ext cfg f hf
    simp only [analyze_browser_extension, List.mem_append] at hf
    rcases hf with ((hf | hf) | hf) | hf <;>
      repeat' split at hf
    all_goals
      first
        | exact absurd hf (List.not_mem_nil _)
        | (rw [List.mem_singleton] at hf
           have hpre : pyStartsWith f.id "browser_ext:" = true := by
             rw [hf]
             simp only [create_high_risk_extension_finding,
               create_broad_access_extension_finding, create_suspicious_extension_finding,
               create_extension_info_finding, string_append_assoc]
             exact pyStartsWith_append_left _ _
           exact ⟨by rw [hf]; rfl, hpre, pyStartsWith_browser_extension_false _ hpre⟩)

/-- Witness for the C5 theorem: the inventory finding of a concrete Chrome
extension has category `browser_extension`, id prefix `browser_ext:`, and
not prefix `browser_extension:`. -/
theorem finding_id_category_composite_witness :
    (create_extension_info_finding
        { browser := some "chrome", id := some "e1", permissions := ["tabs"] }
        "browser_ext:chrome:e1:info" ["tabs"] []).category = "browser_extension" ∧
    pyStartsWith (create_extension_info_finding
        { browser := some "chrome", id := some "e1", permissions := ["tabs"] }
        "browser_ext:chrome:e1:info" ["tabs"] []).id "browser_ext:" = true ∧
    pyStartsWith (create_extension_info_finding
        { browser := some "chrome", id := some "e1", permissions := ["tabs"] }
        "browser_ext:chrome:e1:info" ["tabs"] []).id "browser_extension:" = false :=
  finding_id_category_composite.2.2
    { browser := some "chrome", id := some "e1", permissions := ["tabs"] } none _
    (by decide)
